import Mathlib

/-!
Shallow embedding of the cat-home rental-listing scraper core
(packages/scraper): the shared text normalizers, the pet-condition
inferencer, and the per-source extraction operations, together with
theorems settling the specification claims about them.

Modeling conventions, used throughout:
* JS strings are modeled by `String` / `List Char`; every character that
  appears in the scraped text is in the BMP, so JS UTF-16 code-unit
  indexing agrees with code-point indexing.
* JS `number` results are `Int` (integer yen) or `Rat` (areas); where a
  code path can produce `NaN`, the result type is an `Option` with `none`
  playing the role of `NaN`, noted at the definition.
* Each regular expression of the source is embedded as a dedicated
  matcher whose doc comment quotes the regex.  Where a greedy
  quantifier is followed by a disjoint character class, greedy maximal
  munch is equivalent to full backtracking and is used directly; where
  backtracking can matter (a negated class star), it is implemented
  explicitly.
-/

namespace CatHome

/-- The regex character class `[0-9]` (also `\d`). -/
def isDigitChar (c : Char) : Bool := c.isDigit

/-- The regex character class `[0-9.]` used by the numeric-run regexes. -/
def isNumRunChar (c : Char) : Bool := c.isDigit || c = '.'

/-- The regex character class `[0-9,]` used by the HOME'S fee-cell regex. -/
def isCommaDigit (c : Char) : Bool := c.isDigit || c = ','

/-- Numeric value of a decimal digit character. -/
def digitVal (c : Char) : Nat := c.toNat - 48

/-- Value of a string of decimal digits (the usual left fold). -/
def natOfDigits (ds : List Char) : Nat := ds.foldl (fun acc c => 10 * acc + digitVal c) 0

/-- JS `parseFloat` on the sign-, exponent- and whitespace-free strings
the numeric-run regexes produce (runs over `[0-9.]`): leading digits,
then at most one decimal point and further digits; everything after a
second point is ignored, exactly as `parseFloat` stops at the first
character that cannot extend the literal.  `none` models `NaN` (no digit
was consumed).  The value `int + frac/10^|frac|` is built as the single
quotient `digits(int ++ frac) / 10^|frac|` (the theorem
`jsParseFloat_spec` below checks the two agree), because the kernel can
evaluate `mkRat` but not the arithmetic of `Rat`. -/
def jsParseFloat (s : List Char) : Option Rat :=
  let intPart := s.takeWhile isDigitChar
  let rest := s.dropWhile isDigitChar
  match rest with
  | '.' :: r =>
    let frac := r.takeWhile isDigitChar
    if intPart.isEmpty && frac.isEmpty then none
    else some (mkRat (natOfDigits (intPart ++ frac)) (10 ^ frac.length))
  | _ => if intPart.isEmpty then none else some (mkRat (natOfDigits intPart) 1)

/-- JS `parseInt(s, 10)` on a digits-only string (the scrapers always
feed it `text.replace(/[^0-9]/g, '')`): `NaN` (`none`) exactly when the
string is empty. -/
def jsParseIntDigits (s : List Char) : Option Nat :=
  if s.isEmpty then none else some (natOfDigits s)

/-- JS `text.replace(/[^0-9]/g, '')`. -/
def stripNonDigits (s : List Char) : List Char := s.filter isDigitChar

/-- JS `Math.round` (round half toward positive infinity), i.e.
`⌊x + 1/2⌋`, computed on the reduced numerator/denominator pair as
`(2·num + den).fdiv (2·den)` — the theorem `jsRound_eq_floor` below
proves this is `⌊x + 1/2⌋`. -/
def jsRound (q : Rat) : Int := Int.fdiv (2 * q.num + (q.den : Int)) (2 * (q.den : Int))

/-- The product `q * m` computed as `mkRat (q.num * m) q.den` (the
theorem `ratMulNat_eq` below proves it is exactly `q * m`). -/
def ratMulNat (q : Rat) (m : Nat) : Rat := mkRat (q.num * (m : Int)) q.den

/-- Substring containment on character lists (JS `String.includes`, and
`.test` of an alternation of literals). -/
def hasSubList (needle : List Char) : List Char → Bool
  | [] => needle.isEmpty
  | c :: cs => needle.isPrefixOf (c :: cs) || hasSubList needle cs

/-- JS `text.includes(sub)`. -/
def sContains (hay needle : String) : Bool := hasSubList needle.data hay.data

/-- Leftmost maximal run of characters satisfying `p`, together with the
rest of the input after the run — the first match of a regex `([C]+)`
for a character class `C`. -/
def firstRun (p : Char → Bool) : List Char → Option (List Char × List Char)
  | [] => none
  | c :: cs => if p c then some (c :: cs.takeWhile p, cs.dropWhile p) else firstRun p cs

/-- First match of the regex `(\d+)[ヶか]月`, returning the captured
month count.  `\d+` is greedy and `[ヶか]` accepts no digit, so maximal
munch needs no backtracking; on failure the scan advances one character,
exactly like the JS engine. -/
def monthsMatch : List Char → Option Nat
  | [] => none
  | c :: cs =>
    if isDigitChar c then
      let run := c :: cs.takeWhile isDigitChar
      match cs.dropWhile isDigitChar with
      | k :: m :: _ =>
        if (k = 'ヶ' || k = 'か') && m = '月' then some (natOfDigits run) else monthsMatch cs
      | _ => monthsMatch cs
    else monthsMatch cs

/-- The 8 compass points of the shared `Direction` union type. -/
inductive Direction where
  | north | northeast | east | southeast | south | southwest | west | northwest
deriving DecidableEq, Repr

/-- The closed `BuildingType` union of the shared schema. -/
inductive BuildingType where
  | mansion | apartment | house | terraced | other
deriving DecidableEq, Repr

/-- One entry of a detail page's nearest-station list. -/
structure NearestStation where
  line : String
  station : String
  walkMinutes : Int
  busMinutes : Option Int
deriving DecidableEq, Repr

/-- The `PetConditions` record of the shared schema. -/
structure PetConditions where
  catAllowed : Bool
  catLimit : Option Nat
  dogAllowed : Bool
  smallDogOnly : Bool
  additionalDeposit : Option Int
  notes : Option String
deriving DecidableEq, Repr

/-- `isCatAllowed` (pet-condition-parser): `/猫|ペット可|ペット相談/.test(text)`. -/
def isCatAllowed (text : String) : Bool :=
  sContains text "猫" || sContains text "ペット可" || sContains text "ペット相談"

/-- `isDogAllowed` (pet-condition-parser): `/犬|ペット可|ペット相談/.test(text)`. -/
def isDogAllowed (text : String) : Bool :=
  sContains text "犬" || sContains text "ペット可" || sContains text "ペット相談"

/-- `isSmallDogOnly` (pet-condition-parser): `/小型犬/.test(text)`. -/
def isSmallDogOnly (text : String) : Bool := sContains text "小型犬"

/-- The regex character class `[飼育可]` of the first cat-limit regex. -/
def isCatFeedChar (c : Char) : Bool := c = '飼' || c = '育' || c = '可'

/-- Attempt of the first cat-limit regex `猫[飼育可]*[（(]?(\d+)[匹頭]まで`
at a position just after a `猫`.  The classes `[飼育可]`, `[（(]` and
`\d` are pairwise disjoint and `[匹頭]` accepts no digit, so the greedy
star, the greedy option and the greedy `\d+` never profit from
backtracking: whenever a shortened star or a released bracket would be
retried, the next pattern element faces a character it cannot match. -/
def catLimit1After (cs : List Char) : Option Nat :=
  let afterStar := cs.dropWhile isCatFeedChar
  let afterBracket :=
    match afterStar with
    | c :: r => if c = '（' || c = '(' then r else afterStar
    | [] => afterStar
  match afterBracket with
  | d :: ds =>
    if isDigitChar d then
      let run := d :: ds.takeWhile isDigitChar
      match ds.dropWhile isDigitChar with
      | h :: m1 :: m2 :: _ =>
        if (h = '匹' || h = '頭') && m1 = 'ま' && m2 = 'で' then some (natOfDigits run) else none
      | _ => none
    else none
  | [] => none

/-- First match of `/猫[飼育可]*[（(]?(\d+)[匹頭]まで/`: the scan tries
each position left to right (positions without `猫` fail immediately). -/
def catLimit1 : List Char → Option Nat
  | [] => none
  | c :: cs =>
    if c = '猫' then
      match catLimit1After cs with
      | some n => some n
      | none => catLimit1 cs
    else catLimit1 cs

/-- The negated class `[^）)]` of the second cat-limit regex. -/
def isNotCloseParen (c : Char) : Bool := !(c = '）' || c = ')')

/-- Tail `[（(](\d+)[匹頭]まで[）)]` of the second cat-limit regex. -/
def catLimit2Tail : List Char → Option Nat
  | b :: d :: ds =>
    if (b = '（' || b = '(') && isDigitChar d then
      let run := d :: ds.takeWhile isDigitChar
      match ds.dropWhile isDigitChar with
      | h :: m1 :: m2 :: p :: _ =>
        if (h = '匹' || h = '頭') && m1 = 'ま' && m2 = 'で' && (p = '）' || p = ')') then
          some (natOfDigits run)
        else none
      | _ => none
    else none
  | _ => none

/-- Greedy `[^）)]*` with genuine backtracking: star lengths are tried
from `k` (at most the maximal permissible run) down to `0`. -/
def catLimit2Star (cs : List Char) : Nat → Option Nat
  | 0 => catLimit2Tail cs
  | k + 1 =>
    match catLimit2Tail (cs.drop (k + 1)) with
    | some n => some n
    | none => catLimit2Star cs k

/-- Attempt of `猫[^）)]*[（(](\d+)[匹頭]まで[）)]` just after a `猫`. -/
def catLimit2After (cs : List Char) : Option Nat :=
  catLimit2Star cs (cs.takeWhile isNotCloseParen).length

/-- First match of `/猫[^）)]*[（(](\d+)[匹頭]まで[）)]/`. -/
def catLimit2 : List Char → Option Nat
  | [] => none
  | c :: cs =>
    if c = '猫' then
      match catLimit2After cs with
      | some n => some n
      | none => catLimit2 cs
    else catLimit2 cs

/-- `extractCatLimit` (pet-condition-parser): the first regex
`猫[飼育可]*[（(]?(\d+)[匹頭]まで` wins; the bracketed fallback
`猫[^）)]*[（(](\d+)[匹頭]まで[）)]` is tried only if it fails. -/
def extractCatLimit (text : String) : Option Nat :=
  match catLimit1 text.data with
  | some n => some n
  | none => catLimit2 text.data

/-- Tail of the additional-deposit regex after the literal `敷金`:
`(?:プラス|\+)?(\d+)[ヶか]月[追加増]?`.  The optional group is committed
greedily (releasing it would make `(\d+)` face `プ` or `+`, which cannot
match); `\d+` then `[ヶか]月` needs no backtracking (disjoint classes);
the trailing `[追加増]?` is optional and outside the capture group, so
it affects neither success nor the captured month count. -/
def addDepositAfter (cs : List Char) : Option Nat :=
  let afterPlus :=
    if ['プ', 'ラ', 'ス'].isPrefixOf cs then cs.drop 3
    else if ['+'].isPrefixOf cs then cs.drop 1
    else cs
  match afterPlus with
  | d :: ds =>
    if isDigitChar d then
      let run := d :: ds.takeWhile isDigitChar
      match ds.dropWhile isDigitChar with
      | k :: m :: _ =>
        if (k = 'ヶ' || k = 'か') && m = '月' then some (natOfDigits run) else none
      | _ => none
    else none
  | [] => none

/-- First match of `/敷金(?:プラス|\+)?(\d+)[ヶか]月[追加増]?/`,
returning the captured month count. -/
def addDepositMonths : List Char → Option Nat
  | [] => none
  | c :: cs =>
    if c = '敷' then
      match cs with
      | g :: cs2 =>
        if g = '金' then
          match addDepositAfter cs2 with
          | some n => some n
          | none => addDepositMonths cs
        else addDepositMonths cs
      | [] => none
    else addDepositMonths cs

/-- `extractAdditionalDeposit` (pet-condition-parser).  The TS guard is
`if (!rentAmount) return null`: an absent rent and a rent of `0` are
both falsy, so both short-circuit to `null` before the regex runs. -/
def extractAdditionalDeposit (text : String) (rentAmount : Option Int) : Option Int :=
  match rentAmount with
  | none => none
  | some r =>
    if r = 0 then none
    else
      match addDepositMonths text.data with
      | some months => some (r * months)
      | none => none

/-- `parsePetConditions` (pet-condition-parser): joins the fragments
with a single space and runs the five independent detectors on the
blob; `notes` passes through unchanged (`notes ?? null`). -/
def parsePetConditions (conditions : List String) (rentAmount : Option Int)
    (notes : Option String) : PetConditions :=
  let joinedText := String.intercalate " " conditions
  { catAllowed := isCatAllowed joinedText
    catLimit := extractCatLimit joinedText
    dogAllowed := isDogAllowed joinedText
    smallDogOnly := isSmallDogOnly joinedText
    additionalDeposit := extractAdditionalDeposit joinedText rentAmount
    notes := notes }

/-- The JS `.` metacharacter: any character except a line terminator. -/
def isDotChar (c : Char) : Bool :=
  !(c = '\n' || c = '\r' || c.toNat = 0x2028 || c.toNat = 0x2029)

/-- The prefixes at which the prefecture alternation
`北海道|東京都|大阪府|京都府|.{2,3}県` matches, in the order the engine
tries them (the four literals, then `.{2,3}県` greedily with 3 dots
before 2). -/
def prefAlts (cs : List Char) : List (List Char) :=
  (["北海道".data, "東京都".data, "大阪府".data, "京都府".data].filter
    (fun l => l.isPrefixOf cs)) ++
  (match cs with
   | a :: b :: c :: '県' :: _ =>
     if isDotChar a && isDotChar b && isDotChar c then [[a, b, c, '県']] else []
   | _ => []) ++
  (match cs with
   | a :: b :: '県' :: _ =>
     if isDotChar a && isDotChar b then [[a, b, '県']] else []
   | _ => [])

/-- Lazy city capture `(.+?[市区町村])` starting right after the matched
prefecture: the shortest span of `.`-matchable characters, at least one
character long, ending at the first municipality-suffix character. -/
def cityTailAux (acc : List Char) : List Char → Option (List Char)
  | [] => none
  | c :: cs =>
    if c = '市' ∨ c = '区' ∨ c = '町' ∨ c = '村' then some (acc ++ [c])
    else if isDotChar c then cityTailAux (acc ++ [c]) cs
    else none

/-- The capture of `(.+?[市区町村])`: the content `.+?` must consume at
least one character before the suffix character is looked for. -/
def cityTail : List Char → Option (List Char)
  | [] => none
  | c :: cs => if isDotChar c then cityTailAux [c] cs else none

/-- First match of the unanchored city regex
`(?:北海道|東京都|大阪府|京都府|.{2,3}県)(.+?[市区町村])`: at each
position the prefecture alternatives are tried in engine order, and the
first alternative whose lazy city tail succeeds yields the capture. -/
def cityScan : List Char → Option (List Char)
  | [] => none
  | c :: cs =>
    match (prefAlts (c :: cs)).findSome? (fun p => cityTail ((c :: cs).drop p.length)) with
    | some city => some city
    | none => cityScan cs

/-- `parseAddress` (identical private method of every scraper class):
the anchored prefecture match `^(北海道|東京都|大阪府|京都府|.{2,3}県)`
and the unanchored city match, each falling back to the empty string. -/
def parseAddress (address : String) : String × String :=
  let prefecture :=
    match (prefAlts address.data).head? with
    | some p => String.mk p
    | none => ""
  let city :=
    match cityScan address.data with
    | some city => String.mk city
    | none => ""
  (prefecture, city)

/-- The detail record `ScrapedDetailProperty` produced by a detail-page
parse.  `area : Option Rat` keeps the possibility of the `NaN` that
`parseFloat` yields on a digit-free run (`none`). -/
structure ScrapedDetailProperty where
  name : String
  address : String
  rent : Int
  managementFee : Int
  deposit : Int
  keyMoney : Int
  floorPlan : String
  area : Option Rat
  yearBuilt : Option Int
  buildingType : Option BuildingType
  floors : Option Int
  direction : Option Direction
  nearestStations : List NearestStation
  features : List String
  images : List String
  petConditions : Option PetConditions
deriving DecidableEq, Repr

/-- `Partial<Property>` — the partial canonical record handed to the
persistence collaborator.  An outer `none` is an absent field; for
`area`, `buildingType`, `floors`, `yearBuilt`, `direction` and
`petConditions` the inner `Option` is the field's own nullable value
(`area`'s inner `none` additionally standing for `NaN`, see
`ScrapedDetailProperty`). -/
structure PartialProperty where
  externalId : Option String := none
  source : Option String := none
  name : Option String := none
  address : Option String := none
  prefecture : Option String := none
  city : Option String := none
  rent : Option Int := none
  managementFee : Option Int := none
  deposit : Option Int := none
  keyMoney : Option Int := none
  floorPlan : Option String := none
  area : Option (Option Rat) := none
  buildingType : Option (Option BuildingType) := none
  floors : Option (Option Int) := none
  yearBuilt : Option (Option Int) := none
  direction : Option (Option Direction) := none
  petConditions : Option (Option PetConditions) := none
  features : Option (List String) := none
  nearestStations : Option (List NearestStation) := none
  images : Option (List String) := none
  sourceUrl : Option String := none
deriving DecidableEq, Repr

/-- The result envelope every extractor operation returns
(`ScrapeResult` in types.ts).  `source` is the string union value,
`duration` the elapsed milliseconds measured at the boundary. -/
structure ScrapeResult where
  success : Bool
  properties : List PartialProperty
  error : Option String
  source : String
  duration : Int
deriving DecidableEq, Repr

namespace HomesScraper

/-- `HomesScraper.parseRent`: first `([0-9.]+)` run read as a value in
units of 10,000 yen; `"-"` and the empty string are sentinels; a run
with no digit is `NaN` and caught by the `isNaN` guard. -/
def parseRent (text : String) : Int :=
  if text = "-" ∨ text = "" then 0
  else
    match firstRun isNumRunChar text.data with
    | none => 0
    | some (run, _) =>
      match jsParseFloat run with
      | none => 0
      | some v => jsRound (ratMulNat v 10000)

/-- `HomesScraper.parseManagementFee`: strips every non-digit and reads
the remainder as yen (`parseInt` of the strip; `NaN`, i.e. an empty
strip, falls back to `0`). -/
def parseManagementFee (text : String) : Int :=
  if text = "-" ∨ text = "" then 0
  else
    match jsParseIntDigits (stripNonDigits text.data) with
    | none => 0
    | some n => (n : Int)

/-- `HomesScraper.parseDepositWithRent`: sentinel inputs are `0`; an
`Nヶ月` match multiplies the rent; otherwise a direct `parseRent` whose
positive results pass through and everything else is `0`. -/
def parseDepositWithRent (text : String) (rent : Int) : Int :=
  if text = "" ∨ text = "-" ∨ text = "なし" then 0
  else
    match monthsMatch text.data with
    | some months => rent * (months : Int)
    | none =>
      let rentValue := parseRent text
      if rentValue > 0 then rentValue else 0

/-- `HomesScraper.parseDirection`'s `directionMap`, in source insertion
order — the order `Object.entries` iterates string keys. -/
def directionMap : List (String × Direction) :=
  [("北", .north), ("北東", .northeast), ("東", .east), ("南東", .southeast),
   ("南", .south), ("南西", .southwest), ("西", .west), ("北西", .northwest)]

/-- `HomesScraper.parseDirection`, applied to the text of the 向き table
cell (the DOM lookup is the input here): the first map entry whose key
the text `includes` wins. -/
def parseDirection (text : String) : Option Direction :=
  match directionMap.find? (fun e => sContains text e.1) with
  | some e => some e.2
  | none => none

end HomesScraper

namespace NiftyScraper

/-- `NiftyScraper.parseRent` — same body as the HOME'S version: first
numeric run in units of 10,000 yen, sentinels `"-"` and `""`. -/
def parseRent (text : String) : Int :=
  if text = "-" ∨ text = "" then 0
  else
    match firstRun isNumRunChar text.data with
    | none => 0
    | some (run, _) =>
      match jsParseFloat run with
      | none => 0
      | some v => jsRound (ratMulNat v 10000)

/-- `NiftyScraper.parseManagementFee`: strip non-digits, `parseInt`,
`NaN` to `0`. -/
def parseManagementFee (text : String) : Int :=
  if text = "-" ∨ text = "" then 0
  else
    match jsParseIntDigits (stripNonDigits text.data) with
    | none => 0
    | some n => (n : Int)

/-- `NiftyScraper.parseDepositWithRent` — same body as the HOME'S
version. -/
def parseDepositWithRent (text : String) (rent : Int) : Int :=
  if text = "" ∨ text = "-" ∨ text = "なし" then 0
  else
    match monthsMatch text.data with
    | some months => rent * (months : Int)
    | none =>
      let rentValue := parseRent text
      if rentValue > 0 then rentValue else 0

/-- The JS `\s` class (ECMA-262 WhiteSpace ∪ LineTerminator). -/
def isJsSpace (c : Char) : Bool :=
  c = ' ' || c = '\t' || c = '\n' || c = '\r' || c.toNat = 11 || c.toNat = 12 ||
  c.toNat = 0xa0 || c.toNat = 0x1680 || (0x2000 ≤ c.toNat && c.toNat ≤ 0x200a) ||
  c.toNat = 0x2028 || c.toNat = 0x2029 || c.toNat = 0x202f || c.toNat = 0x205f ||
  c.toNat = 0x3000 || c.toNat = 0xfeff

/-- First match of the Nifty area regex `([0-9.]+)\s*㎡`: a numeric run,
optional whitespace, then the single code point `㎡` (U+33A1) — the
ASCII pair `m²` does not satisfy it.  Greedy runs need no backtracking
(`[0-9.]`, `\s` and `㎡` are pairwise disjoint). -/
def niftyAreaMatch : List Char → Option (List Char)
  | [] => none
  | c :: cs =>
    if isNumRunChar c then
      let run := c :: cs.takeWhile isNumRunChar
      match (cs.dropWhile isNumRunChar).dropWhile isJsSpace with
      | u :: _ => if u = '㎡' then some run else niftyAreaMatch cs
      | [] => niftyAreaMatch cs
    else niftyAreaMatch cs

/-- `NiftyScraper.parseArea`: sentinels `""` and `"-"`; otherwise the
numeral before a `㎡` glyph, `0` when the regex does not match or
`parseFloat` gives `NaN`. -/
def parseArea (text : String) : Rat :=
  if text = "" ∨ text = "-" then 0
  else
    match niftyAreaMatch text.data with
    | none => 0
    | some run =>
      match jsParseFloat run with
      | none => 0
      | some v => v

/-- `NiftyScraper.parseDirection`'s `directionMap` — identical to the
HOME'S copy, same insertion order. -/
def directionMap : List (String × Direction) :=
  [("北", .north), ("北東", .northeast), ("東", .east), ("南東", .southeast),
   ("南", .south), ("南西", .southwest), ("西", .west), ("北西", .northwest)]

/-- `NiftyScraper.parseDirection`, applied to the 向き cell text. -/
def parseDirection (text : String) : Option Direction :=
  match directionMap.find? (fun e => sContains text e.1) with
  | some e => some e.2
  | none => none

end NiftyScraper

namespace DoorScraper

/-- `DoorScraper.parseRent`: like the HOME'S version but with the extra
`"なし"` sentinel. -/
def parseRent (text : String) : Int :=
  if text = "" ∨ text = "-" ∨ text = "なし" then 0
  else
    match firstRun isNumRunChar text.data with
    | none => 0
    | some (run, _) =>
      match jsParseFloat run with
      | none => 0
      | some v => jsRound (ratMulNat v 10000)

/-- `DoorScraper.parseManagementFee`: sentinels give `0`; a text
containing `万` takes its first numeric run times 10,000 and is
`Math.round`ed with no `isNaN` guard, so a digit-free run yields `NaN`
(modeled as `none`); a `万`-text without any numeric run, and every
non-`万` text, falls through to the strip-and-`parseInt` branch. -/
def parseManagementFee (text : String) : Option Int :=
  if text = "" ∨ text = "-" ∨ text = "なし" then some 0
  else
    let intBranch : Option Int :=
      match jsParseIntDigits (stripNonDigits text.data) with
      | none => some 0
      | some n => some (n : Int)
    if sContains text "万" then
      match firstRun isNumRunChar text.data with
      | some (run, _) =>
        match jsParseFloat run with
        | some v => some (jsRound (ratMulNat v 10000))
        | none => none
      | none => intBranch
    else intBranch

/-- `DoorScraper.parseArea`: the first `([0-9.]+)` run with no unit
marker required at all; `0` for empty text, a missing match, or `NaN`. -/
def parseArea (text : String) : Rat :=
  if text = "" then 0
  else
    match firstRun isNumRunChar text.data with
    | none => 0
    | some (run, _) =>
      match jsParseFloat run with
      | none => 0
      | some v => v

end DoorScraper

namespace SuumoScraper

/-- `SuumoScraper.parseRent` (sources/suumo.ts, the `BaseScraper`
revision with the skip rule): first `([0-9.]+)` run in units of 10,000
yen, sentinels `"-"` and `""`, `isNaN` guard. -/
def parseRent (text : String) : Int :=
  if text = "-" ∨ text = "" then 0
  else
    match firstRun isNumRunChar text.data with
    | none => 0
    | some (run, _) =>
      match jsParseFloat run with
      | none => 0
      | some v => jsRound (ratMulNat v 10000)

/-- `SuumoScraper.parseManagementFee`: strip non-digits, `parseInt`,
`NaN` to `0`. -/
def parseManagementFee (text : String) : Int :=
  if text = "-" ∨ text = "" then 0
  else
    match jsParseIntDigits (stripNonDigits text.data) with
    | none => 0
    | some n => (n : Int)

/-- `SuumoScraper.scrapeDetail`: not implemented — the uniform failure
envelope, returned without fetching. -/
def scrapeDetail (_url : String) : ScrapeResult :=
  { success := false
    properties := []
    error := some "Not implemented"
    source := "suumo"
    duration := 0 }

end SuumoScraper

namespace ChintaiScraper

/-- `ChintaiScraper.parseRent` — same body as the HOME'S version. -/
def parseRent (text : String) : Int :=
  if text = "-" ∨ text = "" then 0
  else
    match firstRun isNumRunChar text.data with
    | none => 0
    | some (run, _) =>
      match jsParseFloat run with
      | none => 0
      | some v => jsRound (ratMulNat v 10000)

/-- `ChintaiScraper.parseManagementFee`: strip non-digits, `parseInt`,
`NaN` to `0`. -/
def parseManagementFee (text : String) : Int :=
  if text = "-" ∨ text = "" then 0
  else
    match jsParseIntDigits (stripNonDigits text.data) with
    | none => 0
    | some n => (n : Int)

end ChintaiScraper

/-- The regex class `[a-f0-9]` of the HOME'S external-id pattern. -/
def isLowerHex (c : Char) : Bool := c.isDigit || ('a' ≤ c && c ≤ 'f')

/-- The regex class `[a-f0-9-]` of the DOOR external-id pattern. -/
def isHexDash (c : Char) : Bool := isLowerHex c || c = '-'

namespace HomesScraper

/-- First match of the HOME'S external-id regex
`\/chintai\/room\/([a-f0-9]+)\/`, returning the captured hex segment:
the literal path, a non-empty hex run (greedy; `/` is not a hex
character, so no backtracking), and a closing `/`. -/
def roomIdFrom : List Char → Option (List Char)
  | [] => none
  | c :: cs =>
    if "/chintai/room/".data.isPrefixOf (c :: cs) then
      let rest := (c :: cs).drop "/chintai/room/".data.length
      let run := rest.takeWhile isLowerHex
      match rest.dropWhile isLowerHex with
      | s :: _ => if !run.isEmpty && s = '/' then some run else roomIdFrom cs
      | [] => roomIdFrom cs
    else roomIdFrom cs

/-- The external id a HOME'S URL yields (`url.match(...)` with the room
regex, first capture group). -/
def extractRoomExternalId (href : String) : Option String :=
  match roomIdFrom href.data with
  | some run => some (String.mk run)
  | none => none

/-- First match of the HOME'S fee-cell regex `\/([0-9,]+)円`: a slash,
a non-empty run of digits and commas (disjoint from `円`), then `円`. -/
def feeAfterSlash : List Char → Option (List Char)
  | [] => none
  | c :: cs =>
    if c = '/' then
      match cs with
      | d :: ds =>
        if isCommaDigit d then
          let run := d :: ds.takeWhile isCommaDigit
          match ds.dropWhile isCommaDigit with
          | y :: _ => if y = '円' then some run else feeAfterSlash cs
          | [] => feeAfterSlash cs
        else feeAfterSlash cs
      | [] => none
    else feeAfterSlash cs

/-- The regex class `[SLDK]` of the floor-plan pattern. -/
def isSLDK (c : Char) : Bool := c = 'S' || c = 'L' || c = 'D' || c = 'K'

/-- The anchored floor-plan regex `^(\d+[SLDK]+R?|ワンルーム)`: digits,
at least one of `SLDK`, an optional `R` (all three classes disjoint, so
greedy matching needs no backtracking), or the literal `ワンルーム`. -/
def floorPlanMatch (cs : List Char) : Option (List Char) :=
  let alt1 : Option (List Char) :=
    match cs with
    | d :: ds =>
      if isDigitChar d then
        let digits := d :: ds.takeWhile isDigitChar
        let rest := ds.dropWhile isDigitChar
        let sldk := rest.takeWhile isSLDK
        if sldk.isEmpty then none
        else
          match rest.dropWhile isSLDK with
          | 'R' :: _ => some (digits ++ sldk ++ ['R'])
          | _ => some (digits ++ sldk)
      else none
    | [] => none
  match alt1 with
  | some r => some r
  | none => if "ワンルーム".data.isPrefixOf cs then some "ワンルーム".data else none

/-- First match of the layout area regex `([0-9.]+)m²` (the ASCII `m`
followed by U+00B2): a numeric run immediately followed by `m²`. -/
def areaM2Match : List Char → Option (List Char)
  | [] => none
  | c :: cs =>
    if isNumRunChar c then
      let run := c :: cs.takeWhile isNumRunChar
      match cs.dropWhile isNumRunChar with
      | m :: t :: _ => if m = 'm' && t = '²' then some run else areaM2Match cs
      | _ => areaM2Match cs
    else areaM2Match cs

/-- One room row `.prg-roomList tr.prg-roomInfo` of a HOME'S list page,
as the trimmed texts the cheerio selectors extract from it: the
`data-href` attribute, the `.price .priceLabel .num` text, the full
first `.price` cell text, and the `.layout` text. -/
structure RoomRow where
  dataHref : String
  rentNum : String
  priceCell : String
  layout : String
deriving DecidableEq, Repr

/-- One building card `.mod-mergeBuilding--rent--photo`: the trimmed
`.bukkenName` text, the 所在地 row text, and the room rows. -/
structure Building where
  name : String
  address : String
  rooms : List RoomRow
deriving DecidableEq, Repr

/-- A HOME'S list page as the sequence of its building cards. -/
abbrev ListDom := List Building

/-- The raw record `ScrapedProperty` a HOME'S list row yields. -/
structure ScrapedProperty where
  name : String
  address : String
  rent : Int
  managementFee : Int
  floorPlan : String
  area : Option Rat
  sourceUrl : String
  externalId : String
  source : String
deriving DecidableEq, Repr

/-- `HomesScraper.parseListHtml` over the modeled DOM: per building the
shared name/address, per room the external id from `data-href` (a row
with none is skipped — logged, not raised), the rent from the `.num`
text with `万円` appended, the management fee from the `\/([0-9,]+)円`
cell match (empty text when absent), and floor plan and area from the
`.layout` text. -/
def parseListHtml (dom : ListDom) : List ScrapedProperty :=
  dom.flatMap (fun b =>
    b.rooms.filterMap (fun room =>
      match extractRoomExternalId room.dataHref with
      | none => none
      | some externalId =>
        let rent := parseRent (room.rentNum ++ "万円")
        let managementFeeText :=
          match feeAfterSlash room.priceCell.data with
          | some run => String.mk run ++ "円"
          | none => ""
        let managementFee := parseManagementFee managementFeeText
        let floorPlan :=
          match floorPlanMatch room.layout.data with
          | some r => String.mk r
          | none => ""
        let area : Option Rat :=
          match areaM2Match room.layout.data with
          | some run => jsParseFloat run
          | none => some 0
        some { name := b.name
               address := b.address
               rent := rent
               managementFee := managementFee
               floorPlan := floorPlan
               area := area
               sourceUrl := room.dataHref
               externalId := externalId
               source := "homes" }))

/-- `HomesScraper.toPartialProperty`: the list-page record projected
onto the canonical partial `Property`, with the address split. -/
def toPartialProperty (scraped : ScrapedProperty) : PartialProperty :=
  let pc := parseAddress scraped.address
  { externalId := some scraped.externalId
    source := some scraped.source
    name := some scraped.name
    address := some scraped.address
    prefecture := some pc.1
    city := some pc.2
    rent := some scraped.rent
    managementFee := some scraped.managementFee
    floorPlan := some scraped.floorPlan
    area := some scraped.area
    sourceUrl := some scraped.sourceUrl }

/-- `HomesScraper.scrapeList`.  The rate-limited, retrying fetch is the
external collaborator; its outcome (HTML already parsed into the
modeled DOM — cheerio and the defensive extraction never throw) is the
`fetched` argument, and the `Date.now()` difference is `duration`.  A
fetch failure is caught at this boundary and converted into the failure
envelope. -/
def scrapeList (fetched : Except String ListDom) (duration : Int) : ScrapeResult :=
  match fetched with
  | .ok dom =>
    { success := true
      properties := (parseListHtml dom).map toPartialProperty
      error := none
      source := "homes"
      duration := duration }
  | .error msg =>
    { success := false
      properties := []
      error := some msg
      source := "homes"
      duration := duration }

/-- `HomesScraper.scrapeDetail`.  `fetched` is the outcome of the fetch
followed by the defensive `parseDetailHtml` (which cannot throw); the
property is always assembled and emitted on success, its external id
taken from the URL's room pattern and **falling back to the empty
string** when the pattern does not match. -/
def scrapeDetail (url : String) (fetched : Except String ScrapedDetailProperty)
    (duration : Int) : ScrapeResult :=
  match fetched with
  | .ok detail =>
    let pc := parseAddress detail.address
    let externalId :=
      match extractRoomExternalId url with
      | some id => id
      | none => ""
    { success := true
      properties :=
        [{ externalId := some externalId
           source := some "homes"
           name := some detail.name
           address := some detail.address
           prefecture := some pc.1
           city := some pc.2
           rent := some detail.rent
           managementFee := some detail.managementFee
           deposit := some detail.deposit
           keyMoney := some detail.keyMoney
           floorPlan := some detail.floorPlan
           area := some detail.area
           buildingType := some detail.buildingType
           floors := some detail.floors
           yearBuilt := some detail.yearBuilt
           direction := some detail.direction
           petConditions := some detail.petConditions
           features := some detail.features
           nearestStations := some detail.nearestStations
           images := some detail.images
           sourceUrl := some url }]
      error := none
      source := "homes"
      duration := duration }
  | .error msg =>
    { success := false
      properties := []
      error := some msg
      source := "homes"
      duration := duration }

end HomesScraper

namespace DoorScraper

/-- First match of the DOOR external-id regex
`\/properties\/([a-f0-9-]+)`: the literal path, then a non-empty greedy
run of `[a-f0-9-]` with nothing required after it. -/
def propIdFrom : List Char → Option (List Char)
  | [] => none
  | c :: cs =>
    if "/properties/".data.isPrefixOf (c :: cs) then
      let run := ((c :: cs).drop "/properties/".data.length).takeWhile isHexDash
      if run.isEmpty then propIdFrom cs else some run
    else propIdFrom cs

/-- The building-name cleanup `replace(/の賃貸物件情報$/, '')`. -/
def stripRentalSuffix (name : String) : String :=
  if "の賃貸物件情報".data.isSuffixOf name.data then
    String.mk (name.data.take (name.data.length - "の賃貸物件情報".data.length))
  else name

/-- One room row `table.table-secondary tbody tr` of a DOOR list page,
as the trimmed texts the cheerio selectors extract: the
`a.btn-secondary` href, the `em.emphasis-primary` rent text, and the
management-fee, floor-plan and area cells (`td` 2, 4 and 5). -/
structure RoomRow where
  href : String
  rentText : String
  managementFeeText : String
  floorPlanCell : String
  areaText : String
deriving DecidableEq, Repr

/-- One `.building-box`: the `.heading a` text, the first
`.description-item dd` text, and the room rows. -/
structure Building where
  name : String
  address : String
  rooms : List RoomRow
deriving DecidableEq, Repr

/-- A DOOR list page as the sequence of its building boxes. -/
abbrev ListDom := List Building

/-- The raw record a DOOR list row yields.  `managementFee` keeps the
`NaN` possibility of `parseManagementFee` (`none`). -/
structure ScrapedProperty where
  name : String
  address : String
  rent : Int
  managementFee : Option Int
  floorPlan : String
  area : Rat
  sourceUrl : String
  externalId : String
  source : String
deriving DecidableEq, Repr

/-- `DoorScraper.parseListHtml` over the modeled DOM: the building name
with the `の賃貸物件情報` suffix removed, the source URL prefixed with
the DOOR base unless already absolute, and the skip rule — a row whose
href yields no `\/properties\/([a-f0-9-]+)` capture is dropped
entirely (a warning is logged, nothing is raised). -/
def parseListHtml (dom : ListDom) : List ScrapedProperty :=
  dom.flatMap (fun b =>
    let name := stripRentalSuffix b.name
    b.rooms.filterMap (fun room =>
      let sourceUrl :=
        if "http".data.isPrefixOf room.href.data then room.href
        else "https://door.ac" ++ room.href
      match propIdFrom room.href.data with
      | none => none
      | some idRun =>
        some { name := name
               address := b.address
               rent := parseRent room.rentText
               managementFee := parseManagementFee room.managementFeeText
               floorPlan := room.floorPlanCell
               area := parseArea room.areaText
               sourceUrl := sourceUrl
               externalId := String.mk idRun
               source := "door" }))

end DoorScraper

/-- A concrete parsed detail record with every optional field absent,
used to instantiate the detail-scrape theorems at a specific input. -/
def sampleDetail : ScrapedDetailProperty :=
  { name := "ペット可レジデンス"
    address := "東京都目黒区中目黒2-5-8"
    rent := 145000
    managementFee := 12000
    deposit := 145000
    keyMoney := 145000
    floorPlan := "1LDK"
    area := some (mkRat 425 10)
    yearBuilt := some 2020
    buildingType := some BuildingType.mansion
    floors := some 10
    direction := none
    nearestStations := []
    features := []
    images := []
    petConditions := none }

/-!
Theorems.  First the bridge lemmas justifying the kernel-evaluable
arithmetic encodings, then one theorem (with counterexample/witness
where required) per specification claim.
-/

/-- `natOfDigits` as a fold from an arbitrary accumulator. -/
theorem natOfDigits_foldl (n : Nat) (b : List Char) :
    b.foldl (fun acc c => 10 * acc + digitVal c) n = n * 10 ^ b.length + natOfDigits b := by
  induction b generalizing n with
  | nil => simp [natOfDigits]
  | cons c b ih =>
    simp only [List.foldl_cons, List.length_cons, natOfDigits]
    rw [ih, ih (10 * 0 + digitVal c)]
    ring

/-- Digit strings concatenate positionally. -/
theorem natOfDigits_append (a b : List Char) :
    natOfDigits (a ++ b) = natOfDigits a * 10 ^ b.length + natOfDigits b := by
  rw [natOfDigits, List.foldl_append, natOfDigits_foldl]; rfl

/-- The single-quotient encoding used by `jsParseFloat` equals the
textbook value `int + frac / 10 ^ |frac|`. -/
theorem jsParseFloat_spec (intPart frac : List Char) :
    mkRat (natOfDigits (intPart ++ frac)) (10 ^ frac.length) =
      (natOfDigits intPart : Rat) + (natOfDigits frac : Rat) / (10 : Rat) ^ frac.length := by
  rw [Rat.mkRat_eq_div, natOfDigits_append]
  push_cast
  have h10 : ((10 : Rat)) ^ frac.length ≠ 0 := by positivity
  field_simp

/-- The floor-division encoding of `jsRound` is `⌊x + 1/2⌋`, the value
of JS `Math.round` on every (non-`NaN`) rational. -/
theorem jsRound_eq_floor (q : Rat) : jsRound q = ⌊q + 1 / 2⌋ := by
  have hden : ((q.den : Rat)) ≠ 0 := by exact_mod_cast q.den_pos.ne'
  have h2 : ((2 * q.num + (q.den : Int) : Int) : Rat) / ((2 * q.den : Nat) : Rat) = q + 1 / 2 := by
    conv_rhs => rw [← Rat.num_div_den q]
    push_cast
    field_simp
    ring
  rw [← h2, Rat.floor_intCast_div_natCast, jsRound, Int.fdiv_eq_ediv _ (by positivity)]
  push_cast
  rfl

/-- The `mkRat` encoding of scalar multiplication is multiplication. -/
theorem ratMulNat_eq (q : Rat) (m : Nat) : ratMulNat q m = q * m := by
  rw [ratMulNat, Rat.mkRat_eq_div]
  push_cast
  rw [mul_comm (q.num : Rat), mul_div_assoc, Rat.num_div_den, mul_comm]

/-- A DOOR external-id capture is never empty (the regex group is
`[a-f0-9-]+`). -/
theorem propIdFrom_ne_nil (cs run : List Char) :
    DoorScraper.propIdFrom cs = some run → run ≠ [] := by
  induction cs with
  | nil => intro h; simp [DoorScraper.propIdFrom] at h
  | cons c cs ih =>
    intro h
    rw [DoorScraper.propIdFrom] at h
    split at h
    · dsimp only at h
      split at h
      · exact ih h
      · rename_i hne
        injection h with h
        subst h
        simpa [List.isEmpty_iff] using hne
    · exact ih h

/-- A HOME'S external-id capture is never empty (the regex group is
`[a-f0-9]+` and the match requires `!run.isEmpty`). -/
theorem roomIdFrom_ne_nil (cs run : List Char) :
    HomesScraper.roomIdFrom cs = some run → run ≠ [] := by
  induction cs with
  | nil => intro h; simp [HomesScraper.roomIdFrom] at h
  | cons c cs ih =>
    intro h
    rw [HomesScraper.roomIdFrom] at h
    split at h
    · dsimp only at h
      split at h
      · split at h
        · rename_i hcond
          injection h with h
          subst h
          intro hnil
          rw [hnil] at hcond
          simp at hcond
        · exact ih h
      · exact ih h
    · exact ih h

/-- C1: the claim says that for every text containing the compound
`北東` the direction mapper returns `northeast`, never `north`, because
compounds are checked first.  The code iterates `directionMap` in
insertion order with the single character `北` first, and `"北東"`
contains `北`, so both the HOME'S and the Nifty mapper return `north`
on the text `"北東"` — and likewise `east` on `"南東"`, contradicting
the `"南東" → 'southeast'` example documented at the identical SUUMO
copy of this function.  This theorem evaluates the embedded mappers at
the failing inputs. -/
theorem c1_direction_compound_shadowed :
    HomesScraper.parseDirection "北東" = some Direction.north ∧
    NiftyScraper.parseDirection "北東" = some Direction.north ∧
    HomesScraper.parseDirection "南東" = some Direction.east ∧
    NiftyScraper.parseDirection "北西" = some Direction.north := by
  decide

/-- C2 counterexample: the claim states `parseManagementFee("1.2万円") =
12000` for every scraper, but the HOME'S version has no `万円` special
case — it strips the non-digits of `"1.2万円"` to `"12"` and returns
`12`. -/
theorem c2_homes_man_yen_not_scaled :
    HomesScraper.parseManagementFee "1.2万円" = 12 ∧
    HomesScraper.parseManagementFee "1.2万円" ≠ 12000 := by
  decide

/-- C2 as amended: every scraper's yen parser handles thousands
separators (`"12,000円" → 12000`) and the `"-"` sentinel, but only the
DOOR version special-cases a `万` suffix by multiplying by 10000; the
HOME'S, Nifty, SUUMO and CHINTAI versions strip non-digits, so
`"1.2万円"` parses to `12` there. -/
theorem c2_currency_in_yen_per_scraper :
    HomesScraper.parseManagementFee "12,000円" = 12000 ∧
    HomesScraper.parseManagementFee "1.2万円" = 12 ∧
    HomesScraper.parseManagementFee "-" = 0 ∧
    NiftyScraper.parseManagementFee "12,000円" = 12000 ∧
    NiftyScraper.parseManagementFee "1.2万円" = 12 ∧
    NiftyScraper.parseManagementFee "-" = 0 ∧
    SuumoScraper.parseManagementFee "12,000円" = 12000 ∧
    SuumoScraper.parseManagementFee "1.2万円" = 12 ∧
    SuumoScraper.parseManagementFee "-" = 0 ∧
    ChintaiScraper.parseManagementFee "12,000円" = 12000 ∧
    ChintaiScraper.parseManagementFee "1.2万円" = 12 ∧
    ChintaiScraper.parseManagementFee "-" = 0 ∧
    DoorScraper.parseManagementFee "12,000円" = some 12000 ∧
    DoorScraper.parseManagementFee "1.2万円" = some 12000 ∧
    DoorScraper.parseManagementFee "-" = some 0 := by
  decide

/-- C3 counterexample: the claim states every scraper's `parseArea`
accepts both square-meter glyphs and gives `37.26` on `"37.26m²"`, but
the Nifty version requires the single code point `㎡` (U+33A1) and
returns `0` on the ASCII-pair text `"37.26m²"`. -/
theorem c3_nifty_rejects_ascii_glyph :
    NiftyScraper.parseArea "37.26m²" = 0 ∧
    NiftyScraper.parseArea "37.26m²" ≠ mkRat 3726 100 := by
  decide

/-- C3 as amended: the area parsers return `0` on empty text, but each
has its own unit convention rather than accepting both glyphs: the
Nifty parser requires the `㎡` glyph (`37.26` on `"37.26㎡"`, `0` on
`"37.26m²"`), while the DOOR parser takes the first decimal numeral
with no unit marker required at all (`37.26` on `"37.26m²"` and on bare
`"37.26"`).  (`mkRat 3726 100` is the rational `37.26`.) -/
theorem c3_area_per_scraper :
    NiftyScraper.parseArea "37.26㎡" = mkRat 3726 100 ∧
    NiftyScraper.parseArea "37.26m²" = 0 ∧
    NiftyScraper.parseArea "" = 0 ∧
    DoorScraper.parseArea "37.26m²" = mkRat 3726 100 ∧
    DoorScraper.parseArea "37.26" = mkRat 3726 100 ∧
    DoorScraper.parseArea "" = 0 := by
  decide

/-- C4 counterexample: the claim states a record whose external id
cannot be derived is dropped from **every** extraction operation's
output, including the detail-page scrape.  But `HomesScraper.scrapeDetail`
on a URL that does not match the room pattern still emits its single
record, with `externalId = ""` — nothing is dropped. -/
theorem c4_detail_emits_empty_external_id :
    (HomesScraper.scrapeDetail "https://example.com/foo" (Except.ok sampleDetail) 0).success
        = true ∧
    (HomesScraper.scrapeDetail "https://example.com/foo" (Except.ok sampleDetail) 0).properties.map
        PartialProperty.externalId = [some ""] := by
  decide

/-- C4 as amended: the silent-drop rule holds for list-page parsing —
every record either extractor's `parseListHtml` emits has a non-empty
external id — while the detail-page scrape instead emits its single
record with an empty `externalId` whenever the URL pattern fails to
match. -/
theorem c4_list_drops_detail_keeps :
    (∀ (dom : DoorScraper.ListDom), ∀ p ∈ DoorScraper.parseListHtml dom,
      p.externalId ≠ "") ∧
    (∀ (dom : HomesScraper.ListDom), ∀ p ∈ HomesScraper.parseListHtml dom,
      p.externalId ≠ "") ∧
    (∀ (url : String) (detail : ScrapedDetailProperty) (d : Int),
      HomesScraper.extractRoomExternalId url = none →
      (HomesScraper.scrapeDetail url (Except.ok detail) d).properties.map
          PartialProperty.externalId = [some ""]) := by
  refine ⟨?_, ?_, ?_⟩
  · intro dom p hp
    rw [DoorScraper.parseListHtml, List.mem_flatMap] at hp
    obtain ⟨b, _, hp⟩ := hp
    rw [List.mem_filterMap] at hp
    obtain ⟨room, _, hroom⟩ := hp
    dsimp only at hroom
    split at hroom
    · exact absurd hroom (by simp)
    · rename_i idRun hid
      injection hroom with hroom
      subst hroom
      intro hempty
      exact propIdFrom_ne_nil _ _ hid (congrArg String.data hempty)
  · intro dom p hp
    rw [HomesScraper.parseListHtml, List.mem_flatMap] at hp
    obtain ⟨b, _, hp⟩ := hp
    rw [List.mem_filterMap] at hp
    obtain ⟨room, _, hroom⟩ := hp
    dsimp only at hroom
    split at hroom
    · exact absurd hroom (by simp)
    · rename_i xid hid
      rw [HomesScraper.extractRoomExternalId] at hid
      split at hid
      · rename_i idRun hrun
        injection hid with hid
        injection hroom with hroom
        subst hroom
        subst hid
        intro hempty
        exact roomIdFrom_ne_nil _ _ hrun (congrArg String.data hempty)
      · exact absurd hid (by simp)
  · intro url detail d hnone
    simp [HomesScraper.scrapeDetail, hnone]

/-- C4 witness: the amended statement applied at a URL without the room
pattern and a concrete fetched detail record. -/
theorem c4_list_drops_detail_keeps_witness :
    (HomesScraper.scrapeDetail "https://example.com/foo" (Except.ok sampleDetail)
        0).properties.map PartialProperty.externalId = [some ""] :=
  c4_list_drops_detail_keeps.2.2 "https://example.com/foo" sampleDetail 0 (by decide)

/-- C5: for every embedded source, the ten-thousand-yen parser returns
`round(value × 10000)` for the first numeric run, treats a suffix-free
numeral exactly like a `万円`-suffixed one, and returns `0` on the
sentinels `"-"`, `"なし"` and `""`. -/
theorem c5_rent_parser_all_sources :
    SuumoScraper.parseRent "8.5万円" = 85000 ∧
    SuumoScraper.parseRent "27.8万円" = 278000 ∧
    SuumoScraper.parseRent "8.5" = 85000 ∧
    SuumoScraper.parseRent "-" = 0 ∧
    SuumoScraper.parseRent "なし" = 0 ∧
    SuumoScraper.parseRent "" = 0 ∧
    HomesScraper.parseRent "8.5万円" = 85000 ∧
    HomesScraper.parseRent "27.8万円" = 278000 ∧
    HomesScraper.parseRent "8.5" = 85000 ∧
    HomesScraper.parseRent "-" = 0 ∧
    HomesScraper.parseRent "なし" = 0 ∧
    HomesScraper.parseRent "" = 0 ∧
    NiftyScraper.parseRent "8.5万円" = 85000 ∧
    NiftyScraper.parseRent "27.8万円" = 278000 ∧
    NiftyScraper.parseRent "8.5" = 85000 ∧
    NiftyScraper.parseRent "-" = 0 ∧
    NiftyScraper.parseRent "なし" = 0 ∧
    NiftyScraper.parseRent "" = 0 ∧
    DoorScraper.parseRent "8.5万円" = 85000 ∧
    DoorScraper.parseRent "27.8万円" = 278000 ∧
    DoorScraper.parseRent "8.5" = 85000 ∧
    DoorScraper.parseRent "-" = 0 ∧
    DoorScraper.parseRent "なし" = 0 ∧
    DoorScraper.parseRent "" = 0 ∧
    ChintaiScraper.parseRent "8.5万円" = 85000 ∧
    ChintaiScraper.parseRent "27.8万円" = 278000 ∧
    ChintaiScraper.parseRent "8.5" = 85000 ∧
    ChintaiScraper.parseRent "-" = 0 ∧
    ChintaiScraper.parseRent "なし" = 0 ∧
    ChintaiScraper.parseRent "" = 0 := by
  decide

/-- C6: the deposit/key-money parser with rent basis multiplies the
rent by the matched month count (`"2ヶ月"` at 115000 gives 230000,
`"1ヶ月"` gives 115000) and returns `0` on `"-"` for **every** rent, in
both the HOME'S and the Nifty copies. -/
theorem c6_deposit_with_rent_basis :
    HomesScraper.parseDepositWithRent "2ヶ月" 115000 = 230000 ∧
    HomesScraper.parseDepositWithRent "1ヶ月" 115000 = 115000 ∧
    (∀ r : Int, HomesScraper.parseDepositWithRent "-" r = 0) ∧
    NiftyScraper.parseDepositWithRent "2ヶ月" 115000 = 230000 ∧
    NiftyScraper.parseDepositWithRent "1ヶ月" 115000 = 115000 ∧
    (∀ r : Int, NiftyScraper.parseDepositWithRent "-" r = 0) :=
  ⟨by decide, by decide, fun _ => rfl, by decide, by decide, fun _ => rfl⟩

/-- C7: the pet-condition inferencer on the three fragments
`猫飼育可（2匹まで）`, `小型犬飼育可（1匹まで）`, `敷金1ヶ月追加` with
rent 85000 yields exactly `catAllowed`, `catLimit = 2`, `dogAllowed`,
`smallDogOnly`, and `additionalDeposit = 85000`. -/
theorem c7_pet_inferencer_example :
    parsePetConditions ["猫飼育可（2匹まで）", "小型犬飼育可（1匹まで）", "敷金1ヶ月追加"]
        (some 85000) none =
      { catAllowed := true
        catLimit := some 2
        dogAllowed := true
        smallDogOnly := true
        additionalDeposit := some 85000
        notes := none } := by
  decide

/-- C8: whenever the joined fragment text contains a generic pets-OK
phrase (`ペット可` or `ペット相談`), the inferencer sets both
`catAllowed` and `dogAllowed`, for every fragment list, rent and notes
— no species word is needed. -/
theorem c8_generic_pets_ok_implies_both :
    ∀ (conditions : List String) (rentAmount : Option Int) (notes : Option String),
      sContains (String.intercalate " " conditions) "ペット可" = true ∨
      sContains (String.intercalate " " conditions) "ペット相談" = true →
      (parsePetConditions conditions rentAmount notes).catAllowed = true ∧
      (parsePetConditions conditions rentAmount notes).dogAllowed = true := by
  intro conds r n h
  rcases h with h | h <;>
    exact ⟨by simp [parsePetConditions, isCatAllowed, h],
           by simp [parsePetConditions, isDogAllowed, h]⟩

/-- C8 witness: the theorem applied to the single fragment `ペット可`. -/
theorem c8_generic_pets_ok_implies_both_witness :
    (parsePetConditions ["ペット可"] none none).catAllowed = true ∧
    (parsePetConditions ["ペット可"] none none).dogAllowed = true :=
  c8_generic_pets_ok_implies_both ["ペット可"] none none (Or.inl (by decide))

/-- C9: the uniform envelope at the `scrapeList`/`scrapeDetail`
boundary: `success = false` implies an empty property list in every
returned envelope; a fetch failure is converted into the
`success = false` envelope carrying the error message (never
re-thrown, the embedded operations being total); and the unimplemented
SUUMO detail scrape returns the failure envelope with no properties. -/
theorem c9_envelope_failure_empty :
    (∀ (fetched : Except String HomesScraper.ListDom) (d : Int),
      (HomesScraper.scrapeList fetched d).success = false →
      (HomesScraper.scrapeList fetched d).properties = []) ∧
    (∀ (url : String) (fetched : Except String ScrapedDetailProperty) (d : Int),
      (HomesScraper.scrapeDetail url fetched d).success = false →
      (HomesScraper.scrapeDetail url fetched d).properties = []) ∧
    (∀ (msg : String) (d : Int),
      HomesScraper.scrapeList (Except.error msg) d =
        { success := false, properties := [], error := some msg,
          source := "homes", duration := d }) ∧
    (∀ (url msg : String) (d : Int),
      HomesScraper.scrapeDetail url (Except.error msg) d =
        { success := false, properties := [], error := some msg,
          source := "homes", duration := d }) ∧
    (∀ (url : String),
      (SuumoScraper.scrapeDetail url).success = false ∧
      (SuumoScraper.scrapeDetail url).properties = []) := by
  refine ⟨?_, ?_, ?_, ?_, ?_⟩
  · intro fetched d h
    cases fetched with
    | ok dom => simp [HomesScraper.scrapeList] at h
    | error msg => rfl
  · intro url fetched d h
    cases fetched with
    | ok detail => simp [HomesScraper.scrapeDetail] at h
    | error msg => rfl
  · intro msg d; rfl
  · intro url msg d; rfl
  · intro url; exact ⟨rfl, rfl⟩

/-- C9 witness: the first conjunct applied to a concrete failed fetch. -/
theorem c9_envelope_failure_empty_witness :
    (HomesScraper.scrapeList (Except.error "fetch failed") 0).properties = [] :=
  c9_envelope_failure_empty.1 (Except.error "fetch failed") 0 rfl

/-- C10: the `!rentAmount` guard tests falsiness, so a supplied rent of
`0` behaves exactly like an absent rent: for every fragment list and
notes, `additionalDeposit` is `null` even when the text contains a
matching `敷金Nヶ月` phrase, and the whole inferred record coincides
with the no-rent one. -/
theorem c10_zero_rent_no_additional_deposit :
    ∀ (conditions : List String) (notes : Option String),
      (parsePetConditions conditions (some 0) notes).additionalDeposit = none ∧
      parsePetConditions conditions (some 0) notes =
        parsePetConditions conditions none notes :=
  fun _ _ => ⟨rfl, rfl⟩

end CatHome


